import Mathlib

/-!
Verification development for the MetroMatch BPM resolution pipeline.

Python strings are modelled as lists of Unicode code points (`PyStr`);
machine floats are modelled as rationals (exact for the decimal literals
and integer window comparisons that occur here).  The character classes
`\d` and `\s` are modelled over ASCII, which covers every input the
pipeline's regular expressions are applied to in the properties below.
-/

set_option maxRecDepth 8000

namespace MetroMatch

/-- A Python string, as its list of code points. -/
abbrev PyStr := List Nat

/-- Code points of a Lean string literal, used to write concrete inputs. -/
def pystr (s : String) : PyStr := s.data.map Char.toNat

/-- ASCII decimal digit, the `\d` class as used on the site's markup. -/
def isDigitA (n : Nat) : Bool := 48 ≤ n && n ≤ 57

/-- ASCII whitespace, the `\s` class as used on the site's markup. -/
def isSpaceA (n : Nat) : Bool :=
  n = 32 || n = 9 || n = 10 || n = 13 || n = 11 || n = 12

/-- `str.lower` on one code point (ASCII range). -/
def lowerChar (n : Nat) : Nat := if 65 ≤ n && n ≤ 90 then n + 32 else n

/-- `str.lower`. -/
def lowerStr (s : PyStr) : PyStr := s.map lowerChar

/-- `p` is a prefix of `s` (Boolean). -/
def startsWithB : PyStr → PyStr → Bool
  | [], _ => true
  | _ :: _, [] => false
  | a :: as, b :: bs => a = b && startsWithB as bs

/-- Python's `p in s`: `p` occurs contiguously in `s`. -/
def containsSub : PyStr → PyStr → Bool
  | p, [] => startsWithB p []
  | p, c :: rest => startsWithB p (c :: rest) || containsSub p rest

/-- Numeric value of a run of ASCII digits. -/
def natOfDigits (ds : PyStr) : Nat := ds.foldl (fun a d => a * 10 + (d - 48)) 0

/-- `float` of an integer part and a (possibly empty) fractional digit run,
exact as a rational. -/
def ratOfParts (ds fs : PyStr) : ℚ :=
  (natOfDigits ds : ℚ) + (natOfDigits fs : ℚ) / ((10 : ℚ) ^ fs.length)

/-- One attempt of the pattern `(\d+(?:\.\d+)?)\s*BPM` (case-insensitive)
anchored at the head of `s`: the digit runs are maximal (greedy), the
optional fraction is taken exactly when a dot directly followed by a digit
is present, whitespace is skipped, and the literal `BPM` is matched
ignoring case.  Returns the numeric value and the remainder after the
whole match.  Greedy matching is exact for this pattern: shortening a
digit run leaves a digit in front of `\s*BPM`, which cannot match. -/
def tryBPMMatch (s : PyStr) : Option (ℚ × PyStr) :=
  let ds := s.takeWhile isDigitA
  let r1 := s.dropWhile isDigitA
  if ds.isEmpty then none
  else
    let fr :=
      match r1 with
      | 46 :: r2 =>
        let fs := r2.takeWhile isDigitA
        if fs.isEmpty then (([] : PyStr), r1) else (fs, r2.dropWhile isDigitA)
      | _ => (([] : PyStr), r1)
    let r3 := fr.2.dropWhile isSpaceA
    match r3 with
    | b :: p :: m :: rest =>
      if lowerChar b = 98 && lowerChar p = 112 && lowerChar m = 109 then
        some (ratOfParts ds fr.1, rest)
      else none
    | _ => none

/-- `re.findall(r'(\d+(?:\.\d+)?)\s*BPM', text, re.I)` coerced through
`float`: scan left to right, emitting each non-overlapping match and
resuming after it, advancing one code point after a failed attempt. -/
def scanBPMAux : Nat → PyStr → List ℚ
  | 0, _ => []
  | _ + 1, [] => []
  | fuel + 1, c :: rest =>
    match tryBPMMatch (c :: rest) with
    | some (q, rest2) => q :: scanBPMAux fuel rest2
    | none => scanBPMAux fuel rest

/-- All `<number> BPM` occurrences of a text, in text order. -/
def scanBPM (s : PyStr) : List ℚ := scanBPMAux s.length s

/-- The plausibility window of `_extract_bpm`: `40 <= bpm <= 240`. -/
def realisticB (q : ℚ) : Bool := decide (40 ≤ q) && decide (q ≤ 240)

/-- First match of `re.search(r'(\d+(?:\.\d+)?)', text)`: the leading
maximal digit run at the first digit position, with its optional
fraction. -/
def firstNumberAux : Nat → PyStr → Option ℚ
  | 0, _ => none
  | _ + 1, [] => none
  | fuel + 1, c :: rest =>
    if isDigitA c then
      let ds := (c :: rest).takeWhile isDigitA
      let r1 := (c :: rest).dropWhile isDigitA
      match r1 with
      | 46 :: r2 =>
        let fs := r2.takeWhile isDigitA
        if fs.isEmpty then some (ratOfParts ds []) else some (ratOfParts ds fs)
      | _ => some (ratOfParts ds [])
    else firstNumberAux fuel rest

/-- First decimal number occurring in a text, if any. -/
def firstNumber (s : PyStr) : Option ℚ := firstNumberAux s.length s

/-- The parts of a fetched page that `_extract_bpm` inspects, read off a
`BeautifulSoup` value: the full visible text (`soup.get_text()`), the text
of the parent of the first text node matching `/BPM/i`
(`soup.find(string=re.compile(r'BPM', re.I)).parent.get_text()`, absent
when there is no such node or it has no parent), and the text of the
first element matching the selector `[data-tempo], .tempo, #tempo`. -/
structure Soup where
  text : PyStr
  bpmParentText : Option PyStr
  tempoElemText : Option PyStr
deriving DecidableEq

/-- Strategy 2 of `_extract_bpm`: the neighbourhood of the first `BPM`
text node; an out-of-window number falls through to strategy 3. -/
def extractStrat2 (soup : Soup) (k : Option ℚ) : Option ℚ :=
  match soup.bpmParentText with
  | some pt =>
    match (scanBPM pt).head? with
    | some q => if realisticB q then some q else k
    | none => k
  | none => k

/-- Strategy 3 of `_extract_bpm`: the dedicated tempo element. -/
def extractStrat3 (soup : Soup) : Option ℚ :=
  match soup.tempoElemText with
  | some tt =>
    match firstNumber tt with
    | some q => if realisticB q then some q else none
    | none => none
  | none => none

/-- `SongBPMScraper._extract_bpm`: strategy 1 filters every
`<number> BPM` occurrence to the window `[40, 240]` and returns the
second remaining value when there are at least two, else the single one;
strategies 2 and 3 run only when strategy 1 leaves nothing. -/
def extract_bpm (soup : Soup) : Option ℚ :=
  match (scanBPM soup.text).filter realisticB with
  | [b] => some b
  | _ :: b1 :: _ => some b1
  | [] => extractStrat2 soup (extractStrat3 soup)

/-! ### Slug derivation of `SongBPMScraper._search_page` -/

/-- `str.replace(' ', '-')`. -/
def dashify (s : PyStr) : PyStr := s.map (fun c => if c = 32 then 45 else c)

/-- Membership in `[a-z0-9-]`. -/
def isSlugChar (n : Nat) : Bool :=
  (97 ≤ n && n ≤ 122) || (48 ≤ n && n ≤ 57) || n = 45

/-- Membership in `[a-z0-9.-]`. -/
def isSlugDotChar (n : Nat) : Bool := isSlugChar n || n = 46

/-- `re.sub(r'[^a-z0-9-]', '', s)`. -/
def keepSlug (s : PyStr) : PyStr := s.filter isSlugChar

/-- `re.sub(r'[^a-z0-9.-]', '', s)`. -/
def keepSlugDot (s : PyStr) : PyStr := s.filter isSlugDotChar

/-- `re.sub(r'\)', '', s)`. -/
def dropParen (s : PyStr) : PyStr := s.filter (fun c => !(c = 41))

/-- `re.sub(r'-+', '-', s)`: collapse dash runs to a single dash. -/
def collapseDash : PyStr → PyStr
  | [] => []
  | c :: rest =>
    if c = 45 && rest.head? = some 45 then collapseDash rest
    else c :: collapseDash rest

/-- `str.strip('-')`. -/
def stripDash (s : PyStr) : PyStr :=
  ((s.dropWhile (fun c => c = 45)).reverse.dropWhile (fun c => c = 45)).reverse

/-- `str.count(ch)` for a single code point. -/
def countChar (c : Nat) (s : PyStr) : Nat := (s.filter (fun d => d = c)).length

/-- Python `str.split(sep)` for a one-character separator, empties kept. -/
def splitChar (sep : Nat) : PyStr → List PyStr
  | [] => [[]]
  | c :: rest =>
    match splitChar sep rest with
    | [] => [[]]
    | h :: t => if c = sep then [] :: h :: t else (c :: h) :: t

/-- Python `str.split()` with no argument: whitespace runs separate words,
empties dropped. -/
def wordsAux : PyStr → PyStr → List PyStr
  | [], acc => if acc.isEmpty then [] else [acc.reverse]
  | c :: rest, acc =>
    if isSpaceA c then
      if acc.isEmpty then wordsAux rest [] else acc.reverse :: wordsAux rest []
    else wordsAux rest (c :: acc)

/-- The words of a string, in order. -/
def wordsOf (s : PyStr) : List PyStr := wordsAux s []

/-- Consume `pat` (given lower-case) case-insensitively from the head of a
string, returning the remainder. -/
def dropCI : PyStr → PyStr → Option PyStr
  | [], s => some s
  | _ :: _, [] => none
  | p :: ps, c :: cs => if lowerChar c = p then dropCI ps cs else none

/-- Generic driver for `re.sub`: at each position attempt a match; on a
match emit its replacement and resume after it, else keep the code point
and advance one. -/
def subAux (pat : PyStr → Option (PyStr × PyStr)) : Nat → PyStr → PyStr
  | 0, s => s
  | _ + 1, [] => []
  | fuel + 1, c :: rest =>
    match pat (c :: rest) with
    | some (rep, rest2) => rep ++ subAux pat fuel rest2
    | none => c :: subAux pat fuel rest

/-- `re.sub` with the given single-match attempt function. -/
def subRun (pat : PyStr → Option (PyStr × PyStr)) (s : PyStr) : PyStr :=
  subAux pat s.length s

/-- Matcher for `\s*\(feat\.?[^)]+\)` (IGNORECASE), the parenthesised
feat-clause remover of `clean_title`; the optional dot backtracks when the
body would be empty (as in `"(feat.)"`). -/
def tryFeatParenRemove (s : PyStr) : Option (PyStr × PyStr) :=
  let sp := s.dropWhile isSpaceA
  match sp with
  | 40 :: r1 =>
    match dropCI (pystr "feat") r1 with
    | some r2 =>
      let body : PyStr → Option PyStr := fun x =>
        let mid := x.takeWhile (fun c => !(c = 41))
        if mid.isEmpty then none
        else
          match x.dropWhile (fun c => !(c = 41)) with
          | 41 :: r => some r
          | _ => none
      let afterDot : Option PyStr :=
        match r2 with
        | 46 :: r3 => (body r3).orElse (fun _ => body r2)
        | _ => body r2
      afterDot.map (fun rest => (([] : PyStr), rest))
    | none => none
  | _ => none

/-- Matcher for `\s*\[feat\.?[^\]]+\]` (IGNORECASE), the bracketed
feat-clause remover of `clean_title`. -/
def tryFeatBracketRemove (s : PyStr) : Option (PyStr × PyStr) :=
  let sp := s.dropWhile isSpaceA
  match sp with
  | 91 :: r1 =>
    match dropCI (pystr "feat") r1 with
    | some r2 =>
      let body : PyStr → Option PyStr := fun x =>
        let mid := x.takeWhile (fun c => !(c = 93))
        if mid.isEmpty then none
        else
          match x.dropWhile (fun c => !(c = 93)) with
          | 93 :: r => some r
          | _ => none
      let afterDot : Option PyStr :=
        match r2 with
        | 46 :: r3 => (body r3).orElse (fun _ => body r2)
        | _ => body r2
      afterDot.map (fun rest => (([] : PyStr), rest))
    | none => none
  | _ => none

/-- After an opening `(feat` consume the optional dot and `\s*`. -/
def parseFeatOpen (r1 : PyStr) : Option PyStr :=
  (dropCI (pystr "feat") r1).map (fun r2 =>
    (match r2 with
     | 46 :: r3 => r3
     | _ => r2).dropWhile isSpaceA)

/-- Matcher for `\(feat\.?\s*` with replacement `feat.-`. -/
def tryFeatPeriod (s : PyStr) : Option (PyStr × PyStr) :=
  match s with
  | 40 :: r1 => (parseFeatOpen r1).map (fun r => (pystr "feat.-", r))
  | _ => none

/-- Matcher for `-?\(feat\.?\s*` with replacement `-feat--`. -/
def tryFeatDouble (s : PyStr) : Option (PyStr × PyStr) :=
  match s with
  | 45 :: 40 :: r1 => (parseFeatOpen r1).map (fun r => (pystr "-feat--", r))
  | 40 :: r1 => (parseFeatOpen r1).map (fun r => (pystr "-feat--", r))
  | _ => none

/-- Matcher for `\(feat\.?\s*` with replacement `feat-`. -/
def tryFeatSingle (s : PyStr) : Option (PyStr × PyStr) :=
  match s with
  | 40 :: r1 => (parseFeatOpen r1).map (fun r => (pystr "feat-", r))
  | _ => none

/-- Matcher for `feat-([^-])` with replacement `feat--\1` (no flags). -/
def tryFeatDashFix (s : PyStr) : Option (PyStr × PyStr) :=
  match s with
  | 102 :: 101 :: 97 :: 116 :: 45 :: c :: rest =>
    if c = 45 then none else some (pystr "feat--" ++ [c], rest)
  | _ => none

/-- The artist slug: lower-case, spaces to dashes, restricted to
`[a-z0-9-]`. -/
def artistSlugOf (artist : PyStr) : PyStr := keepSlug (dashify (lowerStr artist))

/-- `clean_title`: the title with parenthesised, then bracketed,
feat-clauses removed. -/
def cleanTitleOf (title : PyStr) : PyStr :=
  subRun tryFeatBracketRemove (subRun tryFeatParenRemove title)

/-- `title_slug` / `song_slug`: the cleaned title, lower-case, dashed,
restricted to `[a-z0-9-]` (no collapsing, no stripping). -/
def titleSlugOf (ct : PyStr) : PyStr := keepSlug (dashify (lowerStr ct))

/-- `full_title_with_period`: the period-joined feat variant. -/
def fullTitlePeriod (title : PyStr) : PyStr :=
  stripDash (collapseDash (keepSlugDot (dropParen
    (subRun tryFeatPeriod (dashify (lowerStr title))))))

/-- `full_title_double_dash`: the double-dash feat variant. -/
def fullTitleDouble (title : PyStr) : PyStr :=
  stripDash (subRun tryFeatDashFix (collapseDash (keepSlug (dropParen
    (subRun tryFeatDouble (dashify (lowerStr title)))))))

/-- `full_title_single_dash`: the single-dash feat variant. -/
def fullTitleSingle (title : PyStr) : PyStr :=
  stripDash (collapseDash (keepSlug (dropParen
    (subRun tryFeatSingle (dashify (lowerStr title))))))

/-- The scraped site's root address. -/
def baseUrl : PyStr := pystr "https://songbpm.com"

/-- The four direct candidate addresses, in the order the code tries
them: period-joined, double-dash, single-dash, then the plain slug. -/
def directUrls (artist title : PyStr) : List PyStr :=
  let aslug := artistSlugOf artist
  let pre := baseUrl ++ pystr "/@" ++ aslug ++ pystr "/"
  [ pre ++ fullTitlePeriod title,
    pre ++ fullTitleDouble title,
    pre ++ fullTitleSingle title,
    pre ++ titleSlugOf (cleanTitleOf title) ]

/-! ### The web tier `SongBPMScraper._search_page` -/

/-- An HTTP response as the scraper reads it: the status code, the parsed
soup (inspected when the page is extracted from), and the `href`
attributes of its anchor tags in document order (inspected when the page
is a catalog listing).  Duplicate anchors collapse to their `href`, which
is all the code uses of a link after collection. -/
structure Page where
  status : Nat
  soup : Soup
  hrefs : List PyStr

/-- The observable actions of one `_search_page` call: the Playwright
attempt and each `session.get`. -/
inductive Ev
  | pw
  | get (url : PyStr)
deriving DecidableEq

/-- The dictionary `_search_page` and `_search_via_playwright` return on
success. -/
structure ScrapeRes where
  bpm : ℚ
  artist : PyStr
  title : PyStr
  source : PyStr
  url : PyStr
deriving DecidableEq

/-- Source tag of a scraper result. -/
def srcScraper : PyStr := pystr "songbpm_scraper"

/-- Source tag of a Playwright result. -/
def srcPlaywright : PyStr := pystr "songbpm_playwright"

/-- The filter a collected catalog link must pass: starts with `/@`, has
at least two slashes (a specific-song link), and mentions the artist slug
or the space-free lowered artist name. -/
def linkKeep (artist aslug : PyStr) (href : PyStr) : Bool :=
  startsWithB (pystr "/@") href && decide (2 ≤ countChar 47 href) &&
    (containsSub aslug (lowerStr href) ||
      containsSub ((lowerStr artist).filter (fun c => !(c = 32))) (lowerStr href))

/-- Append the new links, skipping any already collected. -/
def addLinks (acc : List PyStr) (new : List PyStr) : List PyStr :=
  new.foldl (fun a h => if h ∈ a then a else a ++ [h]) acc

/-- `f'-{w}-' in f'-{part}-'`: the word appears as a whole dash-delimited
token. -/
def wordBounded (w part : PyStr) : Bool :=
  containsSub (45 :: (w ++ [45])) (45 :: (part ++ [45]))

/-- The early-stop test of the pagination loop, over all collected links:
the title slug occurs in a lowered link, or there is at least one
significant word and a link with three URL parts whose last part contains
all of them as dash-delimited tokens. -/
def foundMatchB (tslug : PyStr) (sigws : List PyStr) (links : List PyStr) : Bool :=
  links.any (fun h0 =>
    let h := lowerStr h0
    containsSub tslug h ||
      (!sigws.isEmpty &&
        (let parts := splitChar 47 h
         decide (3 ≤ parts.length) && sigws.all (fun w => wordBounded w (parts.getLastD [])))))

/-- The pagination loop of `_search_page`: fetch the current listing,
collect its passing links, stop on a non-200 status, on a title match
among everything collected, or when no `?after=` link exists; otherwise
follow the next-page link, for at most `fuel` pages.  Returns the
collected links and the fetch trace of the loop. -/
def catLoop (fetch : PyStr → Page) (artist aslug tslug : PyStr) (sigws : List PyStr) :
    Option PyStr → Nat → List PyStr → List PyStr × List Ev
  | none, _, acc => (acc, [])
  | some _, 0, acc => (acc, [])
  | some u, fuel + 1, acc =>
    let p := fetch u
    if !(p.status = 200) then (acc, [Ev.get u])
    else
      let acc2 := addLinks acc (p.hrefs.filter (linkKeep artist aslug))
      if foundMatchB tslug sigws acc2 then (acc2, [Ev.get u])
      else
        match p.hrefs.find? (fun h => containsSub (pystr "/@" ++ aslug ++ pystr "?after=") h) with
        | some nh =>
          let r := catLoop fetch artist aslug tslug sigws (some (baseUrl ++ nh)) fuel acc2
          (r.1, Ev.get u :: r.2)
        | none => (acc2, [Ev.get u])

/-- A link is excluded from scoring when its lowered form contains
`-instrumental`, `-remix` or `-cover`. -/
def excludedB (h0 : PyStr) : Bool :=
  let h := lowerStr h0
  containsSub (pystr "-instrumental") h || containsSub (pystr "-remix") h ||
    containsSub (pystr "-cover") h

/-- The match score of one link: significant title words appearing as
dash-delimited tokens of the song part, plus the whole word count when
the title slug occurs in the link. -/
def scoreOf (tws : List PyStr) (tslug : PyStr) (h0 : PyStr) : Nat :=
  let h := lowerStr h0
  let parts := splitChar 47 h
  let song := if 3 ≤ parts.length then parts.getLastD [] else h
  (tws.filter (fun w => decide (2 < w.length) && wordBounded w song)).length +
    (if containsSub tslug h then tws.length else 0)

/-- Scoring pass of `_search_page`: skip excluded links, keep the first
link with a strictly highest score; an all-zero pass selects nothing. -/
def bestLink (tws : List PyStr) (tslug : PyStr) (links : List PyStr) : Option PyStr × Nat :=
  links.foldl
    (fun st h =>
      if excludedB h then st
      else
        let s := scoreOf tws tslug h
        if st.2 < s then (some h, s) else st)
    (none, 0)

/-- The fallback pass: the first link free of `-instrumental` and of
`-remix` (note: `-cover` is not tested here), else the first collected
link. -/
def fallbackLink (links : List PyStr) : Option PyStr :=
  match links.find? (fun h =>
      !(containsSub (pystr "-instrumental") (lowerStr h)) &&
        !(containsSub (pystr "-remix") (lowerStr h))) with
  | some h => some h
  | none => links.head?

/-- The direct-URL retry of `_search_page`: fetch each candidate address
in order, returning on the first that answers 200 and yields an
extracted BPM. -/
def directPhase (fetch : PyStr → Page) (artist title : PyStr) :
    List PyStr → Option ScrapeRes × List Ev
  | [] => (none, [])
  | u :: rest =>
    let p := fetch u
    if p.status = 200 then
      match extract_bpm p.soup with
      | some b => (some ⟨b, artist, title, srcScraper, u⟩, [Ev.get u])
      | none =>
        let r := directPhase fetch artist title rest
        (r.1, Ev.get u :: r.2)
    else
      let r := directPhase fetch artist title rest
      (r.1, Ev.get u :: r.2)

/-- The fetch of a scored winner's song page; a status of 400 or above
raises inside `raise_for_status` and is caught by the surrounding
handler, yielding no result. -/
def songPhase (fetch : PyStr → Page) (artist title href : PyStr) :
    Option ScrapeRes × List Ev :=
  let u := baseUrl ++ href
  let p := fetch u
  if p.status < 400 then
    match extract_bpm p.soup with
    | some b => (some ⟨b, artist, title, srcScraper, u⟩, [Ev.get u])
    | none => (none, [Ev.get u])
  else (none, [Ev.get u])

/-- `SongBPMScraper._search_page` over a fetch oracle and the outcome of
the Playwright attempt (`none` models both an unavailable capability and
a fruitless rendered search): Playwright first; then the artist-page
check, whose non-200 status aborts the call; then the pagination loop;
then scoring with the fallback pass; a selection with positive score is
fetched and extracted, anything else goes to the direct-URL retry. -/
def search_page (fetch : PyStr → Page) (pw : Option (ℚ × PyStr))
    (artist title : PyStr) : Option ScrapeRes × List Ev :=
  match pw with
  | some bu => (some ⟨bu.1, artist, title, srcPlaywright, bu.2⟩, [Ev.pw])
  | none =>
    let aslug := artistSlugOf artist
    let artistUrl := baseUrl ++ pystr "/@" ++ aslug
    let p0 := fetch artistUrl
    if !(p0.status = 200) then (none, [Ev.pw, Ev.get artistUrl])
    else
      let ct := cleanTitleOf title
      let tws := wordsOf (lowerStr ct)
      let tslug := titleSlugOf ct
      let sigws := tws.filter (fun w => decide (2 < w.length))
      let scan := catLoop fetch artist aslug tslug sigws (some artistUrl) 15 []
      let sel := bestLink tws tslug scan.1
      let rl2 := if sel.1.isNone && !scan.1.isEmpty then fallbackLink scan.1 else sel.1
      let tail :=
        if rl2.isNone || sel.2 = 0 then
          let d := directPhase fetch artist title (directUrls artist title)
          (d.1, scan.2 ++ d.2)
        else
          match rl2 with
          | some href =>
            let sp := songPhase fetch artist title href
            (sp.1, scan.2 ++ sp.2)
          | none => (none, scan.2)
      (tail.1, Ev.pw :: Ev.get artistUrl :: tail.2)

/-! ### The structured API client `GetSongBPMClient` -/

/-- A decoded JSON document as Python represents it. -/
inductive J
  | null
  | bool (b : Bool)
  | num (q : ℚ)
  | str (s : PyStr)
  | arr (l : List J)
  | obj (l : List (PyStr × J))

/-- Association lookup in a JSON object. -/
def jlookup : List (PyStr × J) → PyStr → Option J
  | [], _ => none
  | (k, v) :: rest, key => if k = key then some v else jlookup rest key

/-- Python truthiness of a JSON value. -/
def jtruthy : J → Bool
  | .null => false
  | .bool b => b
  | .num q => !(decide (q = 0))
  | .str s => !s.isEmpty
  | .arr l => !l.isEmpty
  | .obj l => !l.isEmpty

/-- The two classes of Python exception the client's code paths can hit:
`AttributeError` (not in any `except` clause of the client, so it
propagates) and `ValueError`/`TypeError` (both caught). -/
inductive PyErr
  | attr
  | valTy
deriving DecidableEq

/-- `value.get(key)`: an object yields the entry or `None`; `.get` on any
other shape raises `AttributeError`. -/
def pyGet (v : J) (k : PyStr) : Except PyErr (Option J) :=
  match v with
  | .obj l => .ok (jlookup l k)
  | _ => .error .attr

/-- `float` of a string: strip whitespace, optional sign, decimal digits
with an optional fraction and an optional decimal exponent.  `None` means
`float` raised `ValueError`.  (Non-finite spellings such as `inf` are
outside the model; tempo fields are finite decimals.) -/
def parsePyFloat (s : PyStr) : Option ℚ :=
  let t := ((s.dropWhile isSpaceA).reverse.dropWhile isSpaceA).reverse
  let sgn : ℚ × PyStr :=
    match t with
    | 43 :: r => (1, r)
    | 45 :: r => (-1, r)
    | r => (1, r)
  let ds := sgn.2.takeWhile isDigitA
  let r1 := sgn.2.dropWhile isDigitA
  let frac : Option (PyStr × PyStr) :=
    match r1 with
    | 46 :: rr => some (rr.takeWhile isDigitA, rr.dropWhile isDigitA)
    | _ => some ([], r1)
  match frac with
  | some (fs, r2) =>
    if ds.isEmpty && fs.isEmpty then none
    else
      let mant : ℚ := sgn.1 * ratOfParts ds fs
      match r2 with
      | [] => some mant
      | e :: r3 =>
        if e = 101 || e = 69 then
          let esgn : Int × PyStr :=
            match r3 with
            | 43 :: r4 => (1, r4)
            | 45 :: r4 => (-1, r4)
            | r4 => (1, r4)
          let es := esgn.2.takeWhile isDigitA
          if es.isEmpty || !(esgn.2.dropWhile isDigitA).isEmpty then none
          else some (mant * (10 : ℚ) ^ (esgn.1 * natOfDigits es))
        else none
  | none => none

/-- `float` coercion of a JSON value; `none` is a raised
`ValueError`/`TypeError`. -/
def pyFloat : J → Option ℚ
  | .num q => some q
  | .bool b => some (if b then 1 else 0)
  | .str s => parsePyFloat s
  | _ => none

/-- The dictionary `_parse_song` builds (its opaque `raw_data` echo
omitted). -/
structure SongRec where
  bpm : ℚ
  artistName : Option J
  title : Option J

/-- `GetSongBPMClient._parse_song`: coerce `song.get("tempo", 0)` through
`float`, then read the artist name and title echoes. -/
def parse_song (song : J) : Except PyErr SongRec :=
  match pyGet song (pystr "tempo") with
  | .error e => .error e
  | .ok tempoOpt =>
    match pyFloat (tempoOpt.getD (J.num 0)) with
    | none => .error .valTy
    | some q =>
      match pyGet song (pystr "artist") with
      | .error e => .error e
      | .ok artistOpt =>
        match pyGet (artistOpt.getD (J.obj [])) (pystr "name") with
        | .error e => .error e
        | .ok nameOpt =>
          match pyGet song (pystr "song_title") with
          | .error e => .error e
          | .ok titleOpt => .ok ⟨q, nameOpt, titleOpt⟩

/-- The outcome of the `/song/` HTTP round trip as `get_by_id` sees it:
a raised `requests` exception (timeout, connection failure, or the
`raise_for_status` of a non-2xx reply), a body `response.json()` cannot
decode, or a decoded document. -/
inductive ApiResp
  | transport
  | badJson
  | payload (j : J)

/-- `GetSongBPMClient.get_by_id`: transport failures and undecodable
bodies are caught and yield no result; a decoded document is read via
`data.get("song")` and a truthy song record is parsed, with
`ValueError`/`TypeError` from parsing caught as well;
`AttributeError` is in no `except` clause and propagates. -/
def get_by_id (resp : ApiResp) : Except PyErr (Option SongRec) :=
  match resp with
  | .transport => .ok none
  | .badJson => .ok none
  | .payload j =>
    match pyGet j (pystr "song") with
    | .error e => .error e
    | .ok sOpt =>
      match sOpt with
      | none => .ok none
      | some s =>
        if jtruthy s then
          match parse_song s with
          | .ok r => .ok (some r)
          | .error .valTy => .ok none
          | .error .attr => .error .attr
        else .ok none

/-! ### `MongoDBCache` and the manager `BPMManager.get_bpm` -/

/-- The cache identity of a query: `artist.lower()` and `title.lower()`,
exactly as both `MongoDBCache.get` and `MongoDBCache.set` key their
document. -/
def cacheKey (artist title : PyStr) : PyStr × PyStr := (lowerStr artist, lowerStr title)

/-- The cache collection, as the `bpm` field keyed by the normalized
pair. -/
abbrev CacheStore := PyStr × PyStr → Option ℚ

/-- `MongoDBCache.get`. -/
def mongoGet (st : CacheStore) (artist title : PyStr) : Option ℚ :=
  st (cacheKey artist title)

/-- `MongoDBCache.set`: upsert under the normalized key. -/
def mongoSet (st : CacheStore) (artist title : PyStr) (bpm : ℚ) : CacheStore :=
  fun k => if k = cacheKey artist title then some bpm else st k

/-- Two code points equal up to ASCII case. -/
def charCaseEq (a b : Nat) : Bool := lowerChar a = lowerChar b

/-- Two strings differing only by letter case: pointwise equal up to
case. -/
def caseVariantB : PyStr → PyStr → Bool
  | [], [] => true
  | a :: as, b :: bs => charCaseEq a b && caseVariantB as bs
  | _, _ => false

/-- One observable step of `BPMManager.get_bpm`: a cache read, an API
search, a scraper search, or the cache upsert of a found value. -/
inductive MEv
  | cacheGetEv (a t : PyStr)
  | apiSearchEv (a t : PyStr)
  | scrapeSearchEv (a t : PyStr)
  | cacheSetEv (a t : PyStr) (bpm : ℚ)
deriving DecidableEq

/-- The components `BPMManager.__init__` wired in: `none` is an
unconfigured tier.  The API and scraper oracles give the `bpm` field of
the dictionary their `search` returns, `none` being a `None` result. -/
structure MgrCfg where
  cache : Option CacheStore
  api : Option (PyStr → PyStr → Option ℚ)
  scraper : Option (PyStr → PyStr → Option ℚ)

/-- The scraper tier of `get_bpm`: a result with a truthy `bpm` is cached
(when a cache is configured) and returned; anything else is a miss. -/
def scraperStep (scr : Option (PyStr → PyStr → Option ℚ)) (hasCache : Bool)
    (a t : PyStr) : Option ℚ × List MEv :=
  match scr with
  | some f =>
    match f a t with
    | some b =>
      if b = 0 then (none, [MEv.scrapeSearchEv a t])
      else
        (some b,
          MEv.scrapeSearchEv a t :: (if hasCache then [MEv.cacheSetEv a t b] else []))
    | none => (none, [MEv.scrapeSearchEv a t])
  | none => (none, [])

/-- The API tier of `get_bpm`, falling through to the scraper tier on a
missing or falsy result. -/
def apiStep (api scr : Option (PyStr → PyStr → Option ℚ)) (hasCache : Bool)
    (a t : PyStr) : Option ℚ × List MEv :=
  match api with
  | some f =>
    match f a t with
    | some b =>
      if b = 0 then
        let r := scraperStep scr hasCache a t
        (r.1, MEv.apiSearchEv a t :: r.2)
      else
        (some b,
          MEv.apiSearchEv a t :: (if hasCache then [MEv.cacheSetEv a t b] else []))
    | none =>
      let r := scraperStep scr hasCache a t
      (r.1, MEv.apiSearchEv a t :: r.2)
  | none => scraperStep scr hasCache a t

/-- `BPMManager.get_bpm`: cache, then API, then scraper, with no input
validation of any kind; the produced value and the ordered I/O trace. -/
def get_bpm (cfg : MgrCfg) (a t : PyStr) : Option ℚ × List MEv :=
  match cfg.cache with
  | some st =>
    match mongoGet st a t with
    | some b => (some b, [MEv.cacheGetEv a t])
    | none =>
      let r := apiStep cfg.api cfg.scraper true a t
      (r.1, MEv.cacheGetEv a t :: r.2)
  | none => apiStep cfg.api cfg.scraper false a t

/-- The outcome of the `/search/` HTTP round trip as
`GetSongBPMClient.search` sees it: a raised `requests` exception
(timeout, connection failure, `raise_for_status`), an empty body, a body
`response.json()` cannot decode, or a decoded document. -/
inductive SearchResp
  | transport
  | emptyText
  | badJson
  | payload (j : J)

/-- `GetSongBPMClient.search`: phase 1 reads `data.get("search")` — an
`AttributeError` on a non-object payload is in no `except` clause and
propagates; a falsy result, an error-marker or otherwise unexpected
object, and a non-list or empty-list shape are misses; the first stub's
`id` is read (another uncaught `AttributeError` when the stub is not an
object) and, when truthy, phase 2 runs `get_by_id`, whose own round
trip is the second oracle. -/
def client_search (r1 : SearchResp) (r2 : ApiResp) : Except PyErr (Option SongRec) :=
  match r1 with
  | .transport => .ok none
  | .emptyText => .ok none
  | .badJson => .ok none
  | .payload j =>
    match pyGet j (pystr "search") with
    | .error e => .error e
    | .ok srOpt =>
      match srOpt with
      | none => .ok none
      | some sr =>
        if jtruthy sr then
          match sr with
          | J.obj _ => .ok none
          | J.arr items =>
            match items with
            | [] => .ok none
            | it0 :: _ =>
              match pyGet it0 (pystr "id") with
              | .error e => .error e
              | .ok idOpt =>
                match idOpt with
                | none => .ok none
                | some idv => if jtruthy idv then get_by_id r2 else .ok none
          | _ => .ok none
        else .ok none

/-- The `bpm` field of a `search` outcome, as `get_bpm` reads it; the
error side is the propagated exception. -/
def client_search_bpm (r1 : SearchResp) (r2 : ApiResp) : Except PyErr (Option ℚ) :=
  match client_search r1 r2 with
  | .ok o => .ok (o.map SongRec.bpm)
  | .error e => .error e

/-- The manager's components with the API tier's exception channel
explicit.  `MongoDBCache.get` and `SongBPMScraper.search` end in a bare
`except Exception` and can only return a value or `None`, so their
oracles cannot raise; `GetSongBPMClient.search` catches only
`requests.RequestException`, `KeyError`, `ValueError` and `TypeError`,
so an `AttributeError` escapes it, and `BPMManager.get_bpm` wraps no
tier call in a handler of its own. -/
structure MgrCfgE where
  cache : Option CacheStore
  api : Option (PyStr → PyStr → Except PyErr (Option ℚ))
  scraper : Option (PyStr → PyStr → Option ℚ)

/-- The API tier of `get_bpm` over the exception-aware oracle: a raised
exception propagates at once (no cache write, no scraper call); returned
values are handled exactly as in `apiStep`. -/
def apiStepE (api : Option (PyStr → PyStr → Except PyErr (Option ℚ)))
    (scr : Option (PyStr → PyStr → Option ℚ)) (hasCache : Bool)
    (a t : PyStr) : Except PyErr (Option ℚ) × List MEv :=
  match api with
  | some f =>
    match f a t with
    | .error e => (.error e, [MEv.apiSearchEv a t])
    | .ok (some b) =>
      if b = 0 then
        let r := scraperStep scr hasCache a t
        (.ok r.1, MEv.apiSearchEv a t :: r.2)
      else
        (.ok (some b),
          MEv.apiSearchEv a t :: (if hasCache then [MEv.cacheSetEv a t b] else []))
    | .ok none =>
      let r := scraperStep scr hasCache a t
      (.ok r.1, MEv.apiSearchEv a t :: r.2)
  | none =>
    let r := scraperStep scr hasCache a t
    (.ok r.1, r.2)

/-- `BPMManager.get_bpm` with the API tier's exception path explicit:
identical control flow to `get_bpm`, with an exception escaping
`self.api_client.search` propagating out of the call — always after the
cache lookup, never caught; `get_bpm` above is its restriction to API
oracles that return normally. -/
def get_bpmE (cfg : MgrCfgE) (a t : PyStr) : Except PyErr (Option ℚ) × List MEv :=
  match cfg.cache with
  | some st =>
    match mongoGet st a t with
    | some b => (.ok (some b), [MEv.cacheGetEv a t])
    | none =>
      let r := apiStepE cfg.api cfg.scraper true a t
      (r.1, MEv.cacheGetEv a t :: r.2)
  | none => apiStepE cfg.api cfg.scraper false a t

/-- Projection of a parse outcome onto the produced `bpm`, `none` for a
raised exception. -/
def parsedBpm (e : Except PyErr SongRec) : Option ℚ :=
  match e with
  | .ok r => some r.bpm
  | .error _ => none

/-- Projection of a `get_by_id` outcome onto the produced `bpm` field,
`none` for a propagated exception. -/
def clientBpm (e : Except PyErr (Option SongRec)) : Option (Option ℚ) :=
  match e with
  | .ok o => some (o.map SongRec.bpm)
  | .error _ => none

/-- `r = none ∨ r = some 0`: the API dictionary outcomes `get_bpm`
treats as a miss. -/
def tierMiss (r : Option ℚ) : Prop := r = none ∨ r = some 0

/-- Fetch oracle for the C2 run: the catalog root exists and is empty,
everything else is not found. -/
def fetchC2 (u : PyStr) : Page :=
  if u = pystr "https://songbpm.com/@ab" then ⟨200, ⟨[], none, none⟩, []⟩
  else ⟨404, ⟨[], none, none⟩, []⟩

/-- Fetch oracle for the C3 run: the catalog root lists exactly one song
link, whose only flagged segment is `-cover`; everything else is not
found. -/
def fetchC3 (u : PyStr) : Page :=
  if u = pystr "https://songbpm.com/@ab" then ⟨200, ⟨[], none, none⟩, [pystr "/@ab/qq-cover"]⟩
  else ⟨404, ⟨[], none, none⟩, []⟩

/-- Fetch oracle for the C6 run: every page answers 200 and always
offers a next-page link, so pagination never terminates on its own. -/
def fetchC6 (_ : PyStr) : Page :=
  ⟨200, ⟨[], none, none⟩, [pystr "/@ab?after=x"]⟩

end MetroMatch

namespace MetroMatch

lemma realisticB_iff (q : ℚ) : realisticB q = true ↔ 40 ≤ q ∧ q ≤ 240 := by
  simp [realisticB]

lemma extractStrat3_window (soup : Soup) (v : ℚ) (h : extractStrat3 soup = some v) :
    40 ≤ v ∧ v ≤ 240 := by
  unfold extractStrat3 at h
  split at h
  · split at h
    · split at h
      · cases h
        rename_i hr
        exact (realisticB_iff _).mp hr
      · cases h
    · cases h
  · cases h

lemma extractStrat2_window (soup : Soup) (k : Option ℚ)
    (hk : ∀ v, k = some v → 40 ≤ v ∧ v ≤ 240) (v : ℚ)
    (h : extractStrat2 soup k = some v) : 40 ≤ v ∧ v ≤ 240 := by
  unfold extractStrat2 at h
  split at h
  · split at h
    · split at h
      · cases h
        rename_i hr
        exact (realisticB_iff _).mp hr
      · exact hk v h
    · exact hk v h
  · exact hk v h

lemma catLoop_trace_le (fetch : PyStr → Page) (artist aslug tslug : PyStr)
    (sigws : List PyStr) :
    ∀ (fuel : Nat) (cur : Option PyStr) (acc : List PyStr),
      ((catLoop fetch artist aslug tslug sigws cur fuel acc).2).length ≤ fuel := by
  intro fuel
  induction fuel with
  | zero =>
    intro cur acc
    rcases cur with _ | u <;> simp [catLoop]
  | succ n ih =>
    intro cur acc
    rcases cur with _ | u
    · simp [catLoop]
    · simp only [catLoop]
      split
      · simp
      · split
        · simp
        · split
          · simpa using Nat.succ_le_succ (ih _ _)
          · simp

/-- C4: every extractor outcome is absent or lies in the window
`[40, 240]`; a page whose only tempo-like occurrences are `12 BPM` and
`999 BPM` yields absent, and exhausted strategies yield absent rather
than any default. -/
theorem C4_extractor_window :
    (∀ (soup : Soup) (v : ℚ), extract_bpm soup = some v → 40 ≤ v ∧ v ≤ 240) ∧
      extract_bpm ⟨pystr "12 BPM and 999 BPM", some (pystr "12 BPM and 999 BPM"), none⟩ =
        none := by
  constructor
  · intro soup v h
    unfold extract_bpm at h
    split at h
    · cases h
      rename_i hf
      have hb : v ∈ (scanBPM soup.text).filter realisticB := by rw [hf]; simp
      exact (realisticB_iff v).mp (List.of_mem_filter hb)
    · cases h
      rename_i x l hf
      have hb : v ∈ (scanBPM soup.text).filter realisticB := by rw [hf]; simp
      exact (realisticB_iff v).mp (List.of_mem_filter hb)
    · exact extractStrat2_window soup _ (fun w hw => extractStrat3_window soup w hw) v h
  · with_unfolding_all decide

/-- C4 witness: the window bound applied to a concrete extraction. -/
theorem C4_extractor_window_witness : 40 ≤ (200 : ℚ) ∧ (200 : ℚ) ≤ 240 :=
  C4_extractor_window.1 ⟨pystr "60 BPM then 200 BPM", none, none⟩ 200
    (by with_unfolding_all decide)

/-- C5: over the plausibility-filtered `<number> BPM` occurrences of the
page text, the extractor returns the second when at least two remain and
the single one when exactly one remains; `90 BPM` then `128 BPM` yields
128. -/
theorem C5_second_occurrence :
    (∀ (soup : Soup) (v0 v1 : ℚ) (rest : List ℚ),
        (scanBPM soup.text).filter realisticB = v0 :: v1 :: rest →
          extract_bpm soup = some v1) ∧
      (∀ (soup : Soup) (v : ℚ),
        (scanBPM soup.text).filter realisticB = [v] → extract_bpm soup = some v) ∧
      extract_bpm ⟨pystr "Genre: 90 BPM. Song: 128 BPM.", none, none⟩ = some 128 := by
  refine ⟨?_, ?_, by with_unfolding_all decide⟩
  · intro soup v0 v1 rest hf
    unfold extract_bpm
    rw [hf]
  · intro soup v hf
    unfold extract_bpm
    rw [hf]

/-- C5 witness: the second-occurrence rule applied to a concrete page. -/
theorem C5_second_occurrence_witness :
    extract_bpm ⟨pystr "90 BPM x 128 BPM", none, none⟩ = some 128 :=
  C5_second_occurrence.1 ⟨pystr "90 BPM x 128 BPM", none, none⟩ 90 128 []
    (by with_unfolding_all decide)

/-- C6: the pagination loop of the catalog scan fetches at most 15 pages
for every fetch oracle, and exactly 15 against an oracle whose next-page
links never terminate. -/
theorem C6_pagination_bound :
    (∀ (fetch : PyStr → Page) (artist aslug tslug : PyStr) (sigws : List PyStr)
        (cur : Option PyStr) (acc : List PyStr),
        ((catLoop fetch artist aslug tslug sigws cur 15 acc).2).length ≤ 15) ∧
      ((catLoop fetchC6 (pystr "ab") (pystr "ab") (pystr "zz") []
          (some (pystr "https://songbpm.com/@ab")) 15 []).2).length = 15 := by
  exact ⟨fun fetch artist aslug tslug sigws cur acc =>
    catLoop_trace_le fetch artist aslug tslug sigws 15 cur acc,
    by with_unfolding_all decide⟩

lemma directPhase_trace (fetch : PyStr → Page) (artist title : PyStr) :
    ∀ urls : List PyStr, ∃ k, k ≤ urls.length ∧ (urls ≠ [] → 1 ≤ k) ∧
      (directPhase fetch artist title urls).2 = (urls.take k).map Ev.get := by
  intro urls
  induction urls with
  | nil => exact ⟨0, by simp, by simp, by simp [directPhase]⟩
  | cons u rest ih =>
    obtain ⟨k, hk1, _, hk3⟩ := ih
    by_cases h200 : (fetch u).status = 200
    · cases he : extract_bpm (fetch u).soup with
      | some b =>
        exact ⟨1, by simp, fun _ => le_refl 1, by simp [directPhase, h200, he]⟩
      | none =>
        refine ⟨k + 1, by simpa using hk1, fun _ => by omega, ?_⟩
        simp [directPhase, h200, he, hk3]
    · refine ⟨k + 1, by simpa using hk1, fun _ => by omega, ?_⟩
      simp [directPhase, h200, hk3]

/-- C2: the claimed strategy order A, B, C, D fails on a concrete run.
With Playwright yielding nothing for artist `ab` and title `xy`, the
full trace is fetched catalog page, catalog page again, then the four
direct guesses; here every direct guess — the plain title slug
included, since the feat-free title makes all four variants equal
`/@ab/xy` — is fetched only after the catalog fetches.  The conjuncts
pin this down: the trace; the four direct-guess addresses; the call's
first HTTP fetch being the catalog root; that root being none of the
direct-guess addresses; and every event before the first plain-slug
direct fetch including a catalog fetch.  So the direct URL guess with
the plain title slug is not attempted before any catalog page is
fetched, refuting the claimed A, B, C, D order. -/
theorem C2_counterexample :
    (search_page fetchC2 none (pystr "ab") (pystr "xy")).2 =
        [Ev.pw, Ev.get (pystr "https://songbpm.com/@ab"),
          Ev.get (pystr "https://songbpm.com/@ab"),
          Ev.get (pystr "https://songbpm.com/@ab/xy"),
          Ev.get (pystr "https://songbpm.com/@ab/xy"),
          Ev.get (pystr "https://songbpm.com/@ab/xy"),
          Ev.get (pystr "https://songbpm.com/@ab/xy")] ∧
      directUrls (pystr "ab") (pystr "xy") =
        [pystr "https://songbpm.com/@ab/xy", pystr "https://songbpm.com/@ab/xy",
          pystr "https://songbpm.com/@ab/xy", pystr "https://songbpm.com/@ab/xy"] ∧
      (search_page fetchC2 none (pystr "ab") (pystr "xy")).2.take 2 =
        [Ev.pw, Ev.get (pystr "https://songbpm.com/@ab")] ∧
      (pystr "https://songbpm.com/@ab") ∉ directUrls (pystr "ab") (pystr "xy") ∧
      ((search_page fetchC2 none (pystr "ab") (pystr "xy")).2.takeWhile
          (fun e => !(e = Ev.get (pystr "https://songbpm.com/@ab/xy")))).contains
        (Ev.get (pystr "https://songbpm.com/@ab")) = true := by
  with_unfolding_all decide

/-- C2 (amended): a Playwright hit ends the call at once; otherwise the
first fetch is always the artist catalog page, whose non-200 status
aborts the whole call with absent; the direct-URL retry runs after the
catalog scan and tries its four slug-variant addresses in their fixed
order (plain slug last), stopping at the first that succeeds. -/
theorem C2_amended :
    (∀ (fetch : PyStr → Page) (artist title : PyStr) (b : ℚ) (u : PyStr),
        search_page fetch (some (b, u)) artist title =
          (some ⟨b, artist, title, srcPlaywright, u⟩, [Ev.pw])) ∧
      (∀ (fetch : PyStr → Page) (artist title : PyStr),
        (search_page fetch none artist title).2.take 2 =
          [Ev.pw, Ev.get (baseUrl ++ pystr "/@" ++ artistSlugOf artist)]) ∧
      (∀ (fetch : PyStr → Page) (artist title : PyStr),
        ¬((fetch (baseUrl ++ pystr "/@" ++ artistSlugOf artist)).status = 200) →
          search_page fetch none artist title =
            (none, [Ev.pw, Ev.get (baseUrl ++ pystr "/@" ++ artistSlugOf artist)])) ∧
      (∀ (fetch : PyStr → Page) (artist title : PyStr),
        ∃ k, 1 ≤ k ∧ k ≤ 4 ∧
          (directPhase fetch artist title (directUrls artist title)).2 =
            ((directUrls artist title).take k).map Ev.get) := by
  refine ⟨fun fetch artist title b u => rfl, ?_, ?_, ?_⟩
  · intro fetch artist title
    by_cases h : (fetch (baseUrl ++ pystr "/@" ++ artistSlugOf artist)).status = 200
    · simp only [search_page]
      rw [if_neg (by simpa using h)]
      simp
    · simp only [search_page]
      rw [if_pos (by simpa using h)]
      simp
  · intro fetch artist title h
    simp only [search_page]
    rw [if_pos (by simpa using h)]
  · intro fetch artist title
    obtain ⟨k, hk1, hk2, hk3⟩ := directPhase_trace fetch artist title (directUrls artist title)
    refine ⟨k, ?_, ?_, hk3⟩
    · exact hk2 (by simp [directUrls])
    · simpa [directUrls] using hk1

/-- C2 witness: the artist-page abort applied to an oracle that answers
404 everywhere. -/
theorem C2_amended_witness :
    search_page (fun _ => ⟨404, ⟨[], none, none⟩, []⟩) none (pystr "a") (pystr "b") =
      (none, [Ev.pw, Ev.get (baseUrl ++ pystr "/@" ++ artistSlugOf (pystr "a"))]) :=
  C2_amended.2.2.1 (fun _ => ⟨404, ⟨[], none, none⟩, []⟩) (pystr "a") (pystr "b")
    (by with_unfolding_all decide)

/-- C3: the zero-score fallback is not what the claim says; concretely,
with a single collected candidate whose only flagged segment is
`-cover`, the candidate passes the fallback filter (which tests only
`-instrumental` and `-remix`), and the selected fallback candidate's
page is never fetched: the call runs the direct-URL retry instead and
its trace contains no fetch of the candidate. -/
theorem C3_counterexample :
    (catLoop fetchC3 (pystr "ab") (pystr "ab") (pystr "xy") []
        (some (pystr "https://songbpm.com/@ab")) 15 []).1 = [pystr "/@ab/qq-cover"] ∧
      fallbackLink [pystr "/@ab/qq-cover"] = some (pystr "/@ab/qq-cover") ∧
      (search_page fetchC3 none (pystr "ab") (pystr "xy")).1 = none ∧
      ((search_page fetchC3 none (pystr "ab") (pystr "xy")).2.contains
          (Ev.get (pystr "https://songbpm.com/@ab/qq-cover")) = false) := by
  with_unfolding_all decide

/-- C3 (amended): when the best score is 0, a fallback candidate is
computed as the first link free of `-instrumental` and `-remix` (links
containing only `-cover` are not excluded here), else the first
collected link — but that selection is never fetched: the call proceeds
to the direct-URL retry and returns its outcome. -/
theorem C3_amended :
    (∀ (links : List PyStr) (h : PyStr),
        links.find? (fun l => !(containsSub (pystr "-instrumental") (lowerStr l)) &&
            !(containsSub (pystr "-remix") (lowerStr l))) = some h →
          fallbackLink links = some h) ∧
      (∀ links : List PyStr,
        links.find? (fun l => !(containsSub (pystr "-instrumental") (lowerStr l)) &&
            !(containsSub (pystr "-remix") (lowerStr l))) = none →
          fallbackLink links = links.head?) ∧
      (∀ (fetch : PyStr → Page) (artist title : PyStr),
        (fetch (baseUrl ++ pystr "/@" ++ artistSlugOf artist)).status = 200 →
          (bestLink (wordsOf (lowerStr (cleanTitleOf title))) (titleSlugOf (cleanTitleOf title))
              (catLoop fetch artist (artistSlugOf artist) (titleSlugOf (cleanTitleOf title))
                ((wordsOf (lowerStr (cleanTitleOf title))).filter (fun w => decide (2 < w.length)))
                (some (baseUrl ++ pystr "/@" ++ artistSlugOf artist)) 15 []).1).2 = 0 →
          search_page fetch none artist title =
            ((directPhase fetch artist title (directUrls artist title)).1,
              Ev.pw :: Ev.get (baseUrl ++ pystr "/@" ++ artistSlugOf artist) ::
                ((catLoop fetch artist (artistSlugOf artist) (titleSlugOf (cleanTitleOf title))
                    ((wordsOf (lowerStr (cleanTitleOf title))).filter (fun w => decide (2 < w.length)))
                    (some (baseUrl ++ pystr "/@" ++ artistSlugOf artist)) 15 []).2 ++
                  (directPhase fetch artist title (directUrls artist title)).2))) := by
  refine ⟨?_, ?_, ?_⟩
  · intro links h hf
    unfold fallbackLink
    rw [hf]
  · intro links hf
    unfold fallbackLink
    rw [hf]
  · intro fetch artist title h200 hbest
    simp only [search_page]
    rw [if_neg (by simpa using h200)]
    split
    · split
      · rfl
      · rename_i hcond
        exact absurd (by rw [hbest]; simp) hcond
    · split
      · rfl
      · rename_i hcond
        exact absurd (by rw [hbest]; simp) hcond

/-- C3 witness: the zero-score routing applied to an oracle whose
catalog page lists nothing. -/
theorem C3_amended_witness :
    search_page (fun u => if u = pystr "https://songbpm.com/@w" then ⟨200, ⟨[], none, none⟩, []⟩
        else ⟨404, ⟨[], none, none⟩, []⟩) none (pystr "w") (pystr "v") =
      ((directPhase (fun u => if u = pystr "https://songbpm.com/@w" then ⟨200, ⟨[], none, none⟩, []⟩
          else ⟨404, ⟨[], none, none⟩, []⟩) (pystr "w") (pystr "v")
          (directUrls (pystr "w") (pystr "v"))).1,
        Ev.pw :: Ev.get (baseUrl ++ pystr "/@" ++ artistSlugOf (pystr "w")) ::
          ((catLoop (fun u => if u = pystr "https://songbpm.com/@w" then ⟨200, ⟨[], none, none⟩, []⟩
              else ⟨404, ⟨[], none, none⟩, []⟩) (pystr "w") (artistSlugOf (pystr "w"))
              (titleSlugOf (cleanTitleOf (pystr "v")))
              ((wordsOf (lowerStr (cleanTitleOf (pystr "v")))).filter (fun w => decide (2 < w.length)))
              (some (baseUrl ++ pystr "/@" ++ artistSlugOf (pystr "w"))) 15 []).2 ++
            (directPhase (fun u => if u = pystr "https://songbpm.com/@w" then ⟨200, ⟨[], none, none⟩, []⟩
              else ⟨404, ⟨[], none, none⟩, []⟩) (pystr "w") (pystr "v")
              (directUrls (pystr "w") (pystr "v"))).2)) :=
  C3_amended.2.2 _ (pystr "w") (pystr "v") (by with_unfolding_all decide)
    (by with_unfolding_all decide)

lemma lowerChar_idem (n : Nat) : lowerChar (lowerChar n) = lowerChar n := by
  by_cases h : 65 ≤ n ∧ n ≤ 90
  · have h1 : lowerChar n = n + 32 := by
      unfold lowerChar
      rw [if_pos (by simpa using h)]
    have h2 : lowerChar (n + 32) = n + 32 := by
      unfold lowerChar
      rw [if_neg (by simp; omega)]
    rw [h1, h2]
  · have h1 : lowerChar n = n := by
      unfold lowerChar
      rw [if_neg (by simpa using h)]
    rw [h1, h1]

lemma lowerStr_idem (s : PyStr) : lowerStr (lowerStr s) = lowerStr s := by
  unfold lowerStr
  rw [List.map_map]
  exact List.map_congr_left (fun a _ => lowerChar_idem a)

lemma caseVariantB_lower : ∀ s1 s2 : PyStr, caseVariantB s1 s2 = true → lowerStr s1 = lowerStr s2 := by
  intro s1
  induction s1 with
  | nil =>
    intro s2 h
    cases s2 with
    | nil => rfl
    | cons b bs => simp [caseVariantB] at h
  | cons a as ih =>
    intro s2 h
    cases s2 with
    | nil => simp [caseVariantB] at h
    | cons b bs =>
      simp only [caseVariantB, Bool.and_eq_true] at h
      obtain ⟨h1, h2⟩ := h
      have htail := ih bs h2
      simp only [lowerStr, List.map] at htail ⊢
      rw [htail]
      have hhead : lowerChar a = lowerChar b := by simpa [charCaseEq] using h1
      rw [hhead]

/-- C7: the cache key is not whitespace-insensitive; the two spellings
of the spec's own example normalize to different keys, because
`MongoDBCache` only lowercases and never trims. -/
theorem C7_counterexample :
    cacheKey (pystr "Daft Punk") (pystr " Get Lucky ") ≠
      cacheKey (pystr "daft punk") (pystr "get lucky") := by decide

/-- C7 (amended): key normalization is idempotent and case-insensitive —
two pairs differing only by letter case share a key, and a write under
one case form is hit by a read under the other — but it is not
whitespace-insensitive: surrounding whitespace is preserved in the
key. -/
theorem C7_amended :
    (∀ s : PyStr, lowerStr (lowerStr s) = lowerStr s) ∧
      (∀ a1 t1 a2 t2 : PyStr, caseVariantB a1 a2 = true → caseVariantB t1 t2 = true →
        cacheKey a1 t1 = cacheKey a2 t2) ∧
      (∀ (st : CacheStore) (a1 t1 a2 t2 : PyStr) (b : ℚ),
        caseVariantB a1 a2 = true → caseVariantB t1 t2 = true →
          mongoGet (mongoSet st a1 t1 b) a2 t2 = some b) := by
  have key : ∀ a1 t1 a2 t2 : PyStr, caseVariantB a1 a2 = true → caseVariantB t1 t2 = true →
      cacheKey a1 t1 = cacheKey a2 t2 := by
    intro a1 t1 a2 t2 ha ht
    unfold cacheKey
    rw [caseVariantB_lower a1 a2 ha, caseVariantB_lower t1 t2 ht]
  refine ⟨fun s => lowerStr_idem s, key, ?_⟩
  intro st a1 t1 a2 t2 b ha ht
  have hk := key a1 t1 a2 t2 ha ht
  simp [mongoGet, mongoSet, hk]

/-- C7 witness: a write under one case form hit by a read under the
other. -/
theorem C7_amended_witness :
    mongoGet (mongoSet (fun _ => none) (pystr "Daft Punk") (pystr "GET LUCKY") 116)
      (pystr "daft punk") (pystr "get lucky") = some 116 :=
  C7_amended.2.2 (fun _ => none) (pystr "Daft Punk") (pystr "GET LUCKY")
    (pystr "daft punk") (pystr "get lucky") 116 (by decide) (by decide)

/-- C8: a detail record whose tempo field is missing does not yield
absent — `song.get("tempo", 0)` defaults it to `0`, `float(0)` is `0.0`,
and a result with bpm `0.0` is returned. -/
theorem C8_counterexample :
    clientBpm (get_by_id (.payload (J.obj [(pystr "song",
        J.obj [(pystr "song_title", J.str (pystr "x"))])]))) = some (some 0) := by
  with_unfolding_all decide

/-- C8 (amended): transport errors and undecodable bodies yield absent;
a non-numeric tempo yields absent through the caught
`ValueError`/`TypeError` of `float`; a numeric tempo yields its value;
but a missing tempo is defaulted to `0` and yields a result with bpm
`0.0` rather than absent; and a payload that is not a JSON object raises
an uncaught `AttributeError` rather than yielding absent. -/
theorem C8_amended :
    (get_by_id .transport = .ok none) ∧
      (get_by_id .badJson = .ok none) ∧
      (get_by_id (.payload (J.arr [])) = .error .attr) ∧
      (∀ (fields : List (PyStr × J)) (tv : J),
        jlookup fields (pystr "tempo") = some tv → pyFloat tv = none →
          get_by_id (.payload (J.obj [(pystr "song", J.obj fields)])) = .ok none) ∧
      (∀ (fields : List (PyStr × J)) (nameOpt : Option J) (q : ℚ) (tv : J),
        jlookup fields (pystr "tempo") = some tv → pyFloat tv = some q →
          pyGet ((jlookup fields (pystr "artist")).getD (J.obj [])) (pystr "name") =
            .ok nameOpt →
          get_by_id (.payload (J.obj [(pystr "song", J.obj fields)])) =
            .ok (some ⟨q, nameOpt, jlookup fields (pystr "song_title")⟩)) ∧
      (∀ (fields : List (PyStr × J)) (nameOpt : Option J),
        fields ≠ [] →
        jlookup fields (pystr "tempo") = none →
          pyGet ((jlookup fields (pystr "artist")).getD (J.obj [])) (pystr "name") =
            .ok nameOpt →
          get_by_id (.payload (J.obj [(pystr "song", J.obj fields)])) =
            .ok (some ⟨0, nameOpt, jlookup fields (pystr "song_title")⟩)) := by
  refine ⟨rfl, rfl, rfl, ?_, ?_, ?_⟩
  · intro fields tv htv hpf
    have hne : fields ≠ [] := by
      intro he
      rw [he] at htv
      simp [jlookup] at htv
    simp [get_by_id, parse_song, pyGet, jlookup, jtruthy, hne, htv, hpf]
  · intro fields nameOpt q tv htv hpf hname
    have hne : fields ≠ [] := by
      intro he
      rw [he] at htv
      simp [jlookup] at htv
    simp [get_by_id, parse_song, pyGet, jlookup, jtruthy, hne, htv, hpf]
    simp only [pyGet] at hname
    rw [hname]
  · intro fields nameOpt hne htv hname
    simp [get_by_id, parse_song, pyGet, jlookup, jtruthy, hne, htv, pyFloat]
    simp only [pyGet] at hname
    rw [hname]

/-- C8 witness: both the numeric-tempo path and the defaulted
missing-tempo path at concrete records. -/
theorem C8_amended_witness :
    get_by_id (.payload (J.obj [(pystr "song",
        J.obj [(pystr "song_title", J.str (pystr "x"))])])) =
      .ok (some ⟨0, none, jlookup [(pystr "song_title", J.str (pystr "x"))]
        (pystr "song_title")⟩) :=
  C8_amended.2.2.2.2.2 [(pystr "song_title", J.str (pystr "x"))] none
    (by simp) (by with_unfolding_all rfl) (by with_unfolding_all rfl)

lemma scraperStep_no_zero_set (scr : Option (PyStr → PyStr → Option ℚ)) (hc : Bool)
    (a t : PyStr) : MEv.cacheSetEv a t 0 ∉ (scraperStep scr hc a t).2 := by
  unfold scraperStep
  rcases scr with _ | f
  · simp
  · rcases hf : f a t with _ | b
    · simp [hf]
    · by_cases hb : b = 0
      · simp [hf, hb]
      · cases hc <;> simp [hf, hb, Ne.symm hb]

lemma scraperStep_ne_zero (scr : Option (PyStr → PyStr → Option ℚ)) (hc : Bool)
    (a t : PyStr) : ¬((scraperStep scr hc a t).1 = some 0) := by
  unfold scraperStep
  rcases scr with _ | f
  · simp
  · rcases hf : f a t with _ | b
    · simp [hf]
    · by_cases hb : b = 0 <;> simp [hf, hb]

lemma apiStep_no_zero_set (api scr : Option (PyStr → PyStr → Option ℚ)) (hc : Bool)
    (a t : PyStr) : MEv.cacheSetEv a t 0 ∉ (apiStep api scr hc a t).2 := by
  unfold apiStep
  rcases api with _ | f
  · exact scraperStep_no_zero_set scr hc a t
  · rcases hf : f a t with _ | b
    · simpa [hf] using scraperStep_no_zero_set scr hc a t
    · by_cases hb : b = 0
      · simpa [hf, hb] using scraperStep_no_zero_set scr hc a t
      · cases hc <;> simp [hf, hb, Ne.symm hb]

lemma apiStep_ne_zero (api scr : Option (PyStr → PyStr → Option ℚ)) (hc : Bool)
    (a t : PyStr) : ¬((apiStep api scr hc a t).1 = some 0) := by
  unfold apiStep
  rcases api with _ | f
  · exact scraperStep_ne_zero scr hc a t
  · rcases hf : f a t with _ | b
    · simpa [hf] using scraperStep_ne_zero scr hc a t
    · by_cases hb : b = 0
      · simpa [hf, hb] using scraperStep_ne_zero scr hc a t
      · simp [hf, hb]

/-- C1: the tiers are consulted in order cache, API, scraper; a cache
hit returns the cached bpm at once with no API or scraper call in the
trace; a (truthy) result from the API or scraper tier triggers a cache
upsert of exactly that key and value before the return. -/
theorem C1_waterfall :
    (∀ (cfg : MgrCfg) (st : CacheStore) (a t : PyStr) (b : ℚ),
        cfg.cache = some st → mongoGet st a t = some b →
          get_bpm cfg a t = (some b, [MEv.cacheGetEv a t])) ∧
      (∀ (cfg : MgrCfg) (st : CacheStore) (f : PyStr → PyStr → Option ℚ)
          (a t : PyStr) (b : ℚ),
        cfg.cache = some st → mongoGet st a t = none → cfg.api = some f →
          f a t = some b → ¬(b = 0) →
          get_bpm cfg a t =
            (some b, [MEv.cacheGetEv a t, MEv.apiSearchEv a t, MEv.cacheSetEv a t b])) ∧
      (∀ (cfg : MgrCfg) (st : CacheStore) (f g : PyStr → PyStr → Option ℚ)
          (a t : PyStr) (b : ℚ),
        cfg.cache = some st → mongoGet st a t = none → cfg.api = some f →
          tierMiss (f a t) → cfg.scraper = some g → g a t = some b → ¬(b = 0) →
          get_bpm cfg a t =
            (some b, [MEv.cacheGetEv a t, MEv.apiSearchEv a t, MEv.scrapeSearchEv a t,
              MEv.cacheSetEv a t b])) := by
  refine ⟨?_, ?_, ?_⟩
  · intro cfg st a t b hcfg hget
    obtain ⟨c, ap, sc⟩ := cfg
    simp only [MgrCfg.cache] at hcfg
    subst hcfg
    simp [get_bpm, hget]
  · intro cfg st f a t b hcfg hget hapi hf hb
    obtain ⟨c, ap, sc⟩ := cfg
    simp only [MgrCfg.cache] at hcfg
    simp only [MgrCfg.api] at hapi
    subst hcfg
    subst hapi
    simp [get_bpm, apiStep, hget, hf, hb]
  · intro cfg st f g a t b hcfg hget hapi hmiss hscr hg hb
    obtain ⟨c, ap, sc⟩ := cfg
    simp only [MgrCfg.cache] at hcfg
    simp only [MgrCfg.api] at hapi
    simp only [MgrCfg.scraper] at hscr
    subst hcfg
    subst hapi
    subst hscr
    rcases hmiss with hm | hm <;>
      simp [get_bpm, apiStep, scraperStep, hget, hm, hg, hb]

/-- C1 witness: the API path at a concrete configuration. -/
theorem C1_waterfall_witness :
    get_bpm ⟨some (fun _ => none), some (fun _ _ => some 120), none⟩
        (pystr "a") (pystr "b") =
      (some 120, [MEv.cacheGetEv (pystr "a") (pystr "b"),
        MEv.apiSearchEv (pystr "a") (pystr "b"),
        MEv.cacheSetEv (pystr "a") (pystr "b") 120]) :=
  C1_waterfall.2.1 ⟨some (fun _ => none), some (fun _ _ => some 120), none⟩
    (fun _ => none) (fun _ _ => some 120) (pystr "a") (pystr "b") 120
    rfl rfl rfl rfl (by norm_num)

/-- C9: both directions of the claim fail on concrete runs.  With empty
artist and title the call does not raise: every configured tier is
reached and the run returns normally, its trace showing cache, API and
scraper I/O all happening on the empty key — so no raise occurs before
any I/O.  And with non-empty artist and title, a `/search/` payload
that is a JSON array (not an object) makes `data.get("search")` raise
`AttributeError`, which no `except` clause catches: the call propagates
an exception instead of returning a bpm or absent, after the cache
lookup and with no scraper call. -/
theorem C9_counterexample :
    get_bpmE ⟨some (fun _ => none), some (fun _ _ => .ok none), some (fun _ _ => none)⟩
        (pystr "") (pystr "") =
      (.ok none, [MEv.cacheGetEv (pystr "") (pystr ""),
        MEv.apiSearchEv (pystr "") (pystr ""),
        MEv.scrapeSearchEv (pystr "") (pystr "")]) ∧
      get_bpmE ⟨some (fun _ => none),
          some (fun _ _ => client_search_bpm (.payload (J.arr [])) .transport),
          some (fun _ _ => none)⟩
        (pystr "Daft Punk") (pystr "Get Lucky") =
      (.error PyErr.attr, [MEv.cacheGetEv (pystr "Daft Punk") (pystr "Get Lucky"),
        MEv.apiSearchEv (pystr "Daft Punk") (pystr "Get Lucky")]) :=
  ⟨by with_unfolding_all rfl, by with_unfolding_all rfl⟩

/-- C9 (amended): the entry point performs no input validation and
never raises before its first tier I/O — an empty artist or title is
not rejected and proceeds into the first configured tier exactly like
any other input; but the call is not raise-free: an exception outside a
tier's `except` clauses (the API client's `AttributeError` on a payload
that is not a JSON object) propagates to the caller even for non-empty
inputs, always after the cache lookup and without caching or consulting
the scraper; an ordinary not-found across every tier returns absent
without raising; and on API oracles that return normally the
exception-aware run coincides with `get_bpm`. -/
theorem C9_amended :
    (∀ (cfg : MgrCfgE) (st : CacheStore), cfg.cache = some st →
        (get_bpmE cfg (pystr "") (pystr "")).2.take 1 =
          [MEv.cacheGetEv (pystr "") (pystr "")]) ∧
      (∀ (cfg : MgrCfgE) (f : PyStr → PyStr → Except PyErr (Option ℚ)),
        cfg.cache = none → cfg.api = some f →
        (get_bpmE cfg (pystr "") (pystr "")).2.take 1 =
          [MEv.apiSearchEv (pystr "") (pystr "")]) ∧
      (∀ (cfg : MgrCfgE) (g : PyStr → PyStr → Option ℚ), cfg.cache = none →
        cfg.api = none → cfg.scraper = some g →
        (get_bpmE cfg (pystr "") (pystr "")).2.take 1 =
          [MEv.scrapeSearchEv (pystr "") (pystr "")]) ∧
      (∀ (cfg : MgrCfgE) (st : CacheStore) (f : PyStr → PyStr → Except PyErr (Option ℚ))
          (a t : PyStr) (e : PyErr),
        cfg.cache = some st → mongoGet st a t = none → cfg.api = some f →
          f a t = .error e →
          get_bpmE cfg a t = (.error e, [MEv.cacheGetEv a t, MEv.apiSearchEv a t])) ∧
      (∀ r2 : ApiResp, client_search (.payload (J.arr [])) r2 = .error .attr) ∧
      (∀ (cfg : MgrCfgE) (st : CacheStore) (f : PyStr → PyStr → Except PyErr (Option ℚ))
          (g : PyStr → PyStr → Option ℚ) (a t : PyStr),
        cfg.cache = some st → mongoGet st a t = none → cfg.api = some f →
          f a t = .ok none → cfg.scraper = some g → g a t = none →
          get_bpmE cfg a t =
            (.ok none, [MEv.cacheGetEv a t, MEv.apiSearchEv a t,
              MEv.scrapeSearchEv a t])) ∧
      (∀ (c : Option CacheStore) (ap : Option (PyStr → PyStr → Option ℚ))
          (sc : Option (PyStr → PyStr → Option ℚ)) (a t : PyStr),
        get_bpmE ⟨c, ap.map (fun f => fun a2 t2 => .ok (f a2 t2)), sc⟩ a t =
          (.ok (get_bpm ⟨c, ap, sc⟩ a t).1, (get_bpm ⟨c, ap, sc⟩ a t).2)) := by
  refine ⟨?_, ?_, ?_, ?_, fun r2 => rfl, ?_, ?_⟩
  · intro cfg st hcfg
    obtain ⟨c, ap, sc⟩ := cfg
    simp only [MgrCfgE.cache] at hcfg
    subst hcfg
    rcases hget : mongoGet st (pystr "") (pystr "") with _ | b <;> simp [get_bpmE, hget]
  · intro cfg f hc hapi
    obtain ⟨c, ap, sc⟩ := cfg
    simp only [MgrCfgE.cache] at hc
    simp only [MgrCfgE.api] at hapi
    subst hc
    subst hapi
    rcases hf : f (pystr "") (pystr "") with e | o
    · simp [get_bpmE, apiStepE, hf]
    · rcases o with _ | b
      · simp [get_bpmE, apiStepE, hf]
      · by_cases hb : b = 0 <;> simp [get_bpmE, apiStepE, hf, hb]
  · intro cfg g hc hapi hscr
    obtain ⟨c, ap, sc⟩ := cfg
    simp only [MgrCfgE.cache] at hc
    simp only [MgrCfgE.api] at hapi
    simp only [MgrCfgE.scraper] at hscr
    subst hc
    subst hapi
    subst hscr
    rcases hg : g (pystr "") (pystr "") with _ | b
    · simp [get_bpmE, apiStepE, scraperStep, hg]
    · by_cases hb : b = 0 <;> simp [get_bpmE, apiStepE, scraperStep, hg, hb]
  · intro cfg st f a t e hcfg hget hapi hf
    obtain ⟨c, ap, sc⟩ := cfg
    simp only [MgrCfgE.cache] at hcfg
    simp only [MgrCfgE.api] at hapi
    subst hcfg
    subst hapi
    simp [get_bpmE, apiStepE, hget, hf]
  · intro cfg st f g a t hcfg hget hapi hf hscr hg
    obtain ⟨c, ap, sc⟩ := cfg
    simp only [MgrCfgE.cache] at hcfg
    simp only [MgrCfgE.api] at hapi
    simp only [MgrCfgE.scraper] at hscr
    subst hcfg
    subst hapi
    subst hscr
    simp [get_bpmE, apiStepE, scraperStep, hget, hf, hg]
  · intro c ap sc a t
    rcases c with _ | st
    · rcases ap with _ | f
      · simp [get_bpmE, get_bpm, apiStepE, apiStep]
      · rcases hf : f a t with _ | b
        · simp [get_bpmE, get_bpm, apiStepE, apiStep, hf]
        · by_cases hb : b = 0 <;> simp [get_bpmE, get_bpm, apiStepE, apiStep, hf, hb]
    · rcases hget : mongoGet st a t with _ | b0
      · rcases ap with _ | f
        · simp [get_bpmE, get_bpm, apiStepE, apiStep, hget]
        · rcases hf : f a t with _ | b
          · simp [get_bpmE, get_bpm, apiStepE, apiStep, hget, hf]
          · by_cases hb : b = 0 <;>
              simp [get_bpmE, get_bpm, apiStepE, apiStep, hget, hf, hb]
      · simp [get_bpmE, get_bpm, hget]

/-- C9 witness: the no-validation behavior at a concrete
configuration. -/
theorem C9_amended_witness :
    (get_bpmE ⟨some (fun _ => none), none, none⟩ (pystr "") (pystr "")).2.take 1 =
      [MEv.cacheGetEv (pystr "") (pystr "")] :=
  C9_amended.1 ⟨some (fun _ => none), none, none⟩ (fun _ => none) rfl

/-- C10: a tier result with bpm 0 is treated as a miss — a zero value is
never upserted to the cache, never returned (when no cached record holds
0), and with the API configured and answering 0 the scraper tier is
still consulted; `_parse_song` of a record without tempo indeed carries
bpm 0. -/
theorem C10_zero_is_miss :
    (∀ (cfg : MgrCfg) (a t : PyStr), MEv.cacheSetEv a t 0 ∉ (get_bpm cfg a t).2) ∧
      (∀ (cfg : MgrCfg) (a t : PyStr),
        (∀ st, cfg.cache = some st → ¬(mongoGet st a t = some 0)) →
          ¬((get_bpm cfg a t).1 = some 0)) ∧
      (∀ (cfg : MgrCfg) (f g : PyStr → PyStr → Option ℚ) (a t : PyStr),
        (∀ st, cfg.cache = some st → mongoGet st a t = none) →
          cfg.api = some f → f a t = some 0 → cfg.scraper = some g →
          MEv.scrapeSearchEv a t ∈ (get_bpm cfg a t).2) ∧
      parsedBpm (parse_song (J.obj [(pystr "song_title", J.str (pystr "x"))])) = some 0 := by
  refine ⟨?_, ?_, ?_, by with_unfolding_all decide⟩
  · intro cfg a t
    obtain ⟨c, ap, sc⟩ := cfg
    rcases c with _ | st
    · simpa [get_bpm] using apiStep_no_zero_set ap sc false a t
    · rcases hg : mongoGet st a t with _ | b
      · intro hmem
        simp only [get_bpm, hg, List.mem_cons] at hmem
        rcases hmem with h | h
        · cases h
        · exact apiStep_no_zero_set ap sc true a t h
      · simp [get_bpm, hg]
  · intro cfg a t hcache
    obtain ⟨c, ap, sc⟩ := cfg
    rcases c with _ | st
    · simpa [get_bpm] using apiStep_ne_zero ap sc false a t
    · rcases hg : mongoGet st a t with _ | b
      · simpa [get_bpm, hg] using apiStep_ne_zero ap sc true a t
      · have hb := hcache st rfl
        rw [hg] at hb
        simp only [get_bpm, hg]
        intro he
        exact hb (by simpa using he)
  · intro cfg f g a t hcache hapi hf hscr
    obtain ⟨c, ap, sc⟩ := cfg
    simp only [MgrCfg.api] at hapi
    simp only [MgrCfg.scraper] at hscr
    subst hapi
    subst hscr
    rcases c with _ | st
    · rcases hgat : g a t with _ | b
      · simp [get_bpm, apiStep, scraperStep, hf, hgat]
      · by_cases hb : b = 0 <;> simp [get_bpm, apiStep, scraperStep, hf, hgat, hb]
    · have hg := hcache st rfl
      rcases hgat : g a t with _ | b
      · simp [get_bpm, apiStep, scraperStep, hf, hg, hgat]
      · by_cases hb : b = 0 <;> simp [get_bpm, apiStep, scraperStep, hf, hg, hgat, hb]

/-- C10 witness: a configuration whose API answers bpm 0 still reaches
the scraper. -/
theorem C10_zero_is_miss_witness :
    MEv.scrapeSearchEv (pystr "a") (pystr "b") ∈
      (get_bpm ⟨none, some (fun _ _ => some 0), some (fun _ _ => some 100)⟩
        (pystr "a") (pystr "b")).2 :=
  C10_zero_is_miss.2.2.1 ⟨none, some (fun _ _ => some 0), some (fun _ _ => some 100)⟩
    (fun _ _ => some 0) (fun _ _ => some 100) (pystr "a") (pystr "b")
    (fun st h => by cases h) rfl rfl rfl

end MetroMatch
